import Mathlib

/-!
Shallow embedding of `tracker.py` (BSGO balance tracker) and proofs about it.

The tracker periodically scrapes a leaderboard, persists per-record and
per-cycle aggregate CSV rows, renders a two-panel chart and publishes it to
Discord webhooks, editing the previously posted message when one is recorded.

Modelling conventions:
* Timestamps are natural numbers; `datetime.utcnow()` is modelled by a clock
  function `Nat → Nat` indexed by the number of prior clock reads in the call.
* CSV files are lists of rows held in a `TrackerState`; appending to a file is
  appending to the list.
* Python exceptions are modelled with `Except` / an `Option PyErr` outcome.
* Percentages (Python floats rounded with `round(x, 1)`, banker's rounding)
  are modelled with rationals and an explicit round-half-even function.
* Strings are ASCII in all concrete inputs, so `url.encode("utf-8")` is
  modelled as the list of character code points.
-/

/-- Python `str.isdigit()` restricted to ASCII: nonempty and all characters
are decimal digits.  (The URLs/levels handled by the tracker are ASCII.) -/
def pyIsDigit (s : String) : Bool :=
  !s.isEmpty && s.toList.all Char.isDigit

/-- Python `int(s)` for a digit string: decimal value. -/
def pyStrToNat (s : String) : Nat :=
  s.toList.foldl (fun n c => n * 10 + (c.toNat - 48)) 0

/-- One parsed leaderboard row, as built in `fetch_data` (tracker.py:71-77). -/
structure PlayerRecord where
  timestamp : Nat
  faction : String
  player_id : String
  name : String
  level : Nat
deriving DecidableEq, Repr

/-- Row-acceptance predicate of `fetch_data` (tracker.py:68-70): at least four
columns and the fourth column a digit string. -/
def rowAccepted (cols : List String) : Bool :=
  match cols with
  | _ :: _ :: _ :: level :: _ => pyIsDigit level
  | _ => false

/-- Loop body of `fetch_data` (tracker.py:66-77).  `clock k` is the value of
the `k`-th `datetime.utcnow()` call inside this `fetch_data` call; the code
calls `utcnow()` once per accepted row, inside the loop. -/
def fetchAux (clock : Nat → Nat) : Nat → List (List String) → List PlayerRecord
  | _, [] => []
  | k, cols :: rest =>
    match cols with
    | faction :: pid :: name :: level :: _ =>
      if pyIsDigit level then
        { timestamp := clock k
          faction := faction
          player_id := pid
          name := name
          level := pyStrToNat level } :: fetchAux clock (k + 1) rest
      else fetchAux clock k rest
    | _ => fetchAux clock k rest

/-- `fetch_data` (tracker.py:60-78), with the HTTP fetch and HTML parsing
abstracted away: the input is the list of table rows, each a list of cell
texts, and the result is the snapshot (the rows of the returned DataFrame). -/
def fetch_data (clock : Nat → Nat) (rows : List (List String)) : List PlayerRecord :=
  fetchAux clock 0 rows

/-- Projection of a record to its non-timestamp fields. -/
def recFields (r : PlayerRecord) : String × String × String × Nat :=
  (r.faction, r.player_id, r.name, r.level)

/-- Fields an accepted row contributes (first four columns, level parsed). -/
def rowFields (cols : List String) : String × String × String × Nat :=
  (cols.getD 0 "", cols.getD 1 "", cols.getD 2 "", pyStrToNat (cols.getD 3 ""))

/-- One row of `averages.csv`, written by `update_average_csv`
(tracker.py:86-94). -/
structure AvgRow where
  timestamp : Nat
  colonial : Nat
  cylon : Nat
deriving DecidableEq, Repr

/-- `append_to_csv(df, filepath)` (tracker.py:80-84): no-op on an empty
DataFrame, otherwise appends all rows to the file. -/
def append_to_csv (df : List PlayerRecord) (csv : List PlayerRecord) : List PlayerRecord :=
  if df.isEmpty then csv else csv ++ df

/-- `update_average_csv(colonial_count, cylon_count)` (tracker.py:86-94):
always appends exactly one row with the current timestamp. -/
def update_average_csv (ts colonial cylon : Nat) (csv : List AvgRow) : List AvgRow :=
  csv ++ [{ timestamp := ts, colonial := colonial, cylon := cylon }]

/-- `LEVEL_RANGES` (tracker.py:56-58). -/
def LEVEL_RANGES : List (Nat × Nat) :=
  [(0, 15), (16, 25), (26, 45), (46, 80), (81, 139), (140, 200), (201, 255)]

/-- pandas `level.between(low, high)` — inclusive on both ends
(tracker.py:154-155). -/
def inBand (lvl : Nat) (b : Nat × Nat) : Prop := b.1 ≤ lvl ∧ lvl ≤ b.2

instance (lvl : Nat) (b : Nat × Nat) : Decidable (inBand lvl b) :=
  inferInstanceAs (Decidable (_ ∧ _))

/-- One bucket count of the distribution panel (tracker.py:154-155):
`len(df[(df.faction == f) & df.level.between(low, high)])`. -/
def bucketCount (df : List PlayerRecord) (f : String) (b : Nat × Nat) : Nat :=
  (df.filter (fun r => r.faction == f && decide (inBand r.level b))).length

/-- Python `round(x, 1)` scaled to tenths on exact values: round a rational
to the nearest integer, ties to even (banker's rounding). -/
def roundHalfEven (q : ℚ) : ℤ :=
  let n := ⌊q⌋
  if q - n < 1 / 2 then n
  else if 1 / 2 < q - n then n + 1
  else if n % 2 = 0 then n else n + 1

/-- `round(ahead * 100.0 / total, 1)` expressed in tenths of a percent
(tracker.py:123-124), with floats modelled as exact rationals. -/
def pctTenths (ahead total : Nat) : ℤ :=
  roundHalfEven ((ahead * 1000 : ℚ) / total)

/-- Python's float repr of a one-decimal value, from its value in tenths:
`50.0` prints as `"50.0"`, `33.3` as `"33.3"` (tracker.py:125). -/
def fmt1 (t : ℤ) : String :=
  toString (t / 10) ++ "." ++ toString (t % 10)

/-- Non-tied rows of the history (tracker.py:117). -/
def nonTies (df : List AvgRow) : List AvgRow :=
  df.filter (fun r => r.colonial != r.cylon)

/-- `_pct_leader_text(df_avg)` (tracker.py:111-125).  The history rows carry
integer counts, so the `dropna` on line 114 keeps every row and `comp` equals
`df_avg`. -/
def _pct_leader_text (df : List AvgRow) : String :=
  if df.isEmpty then "No history yet."
  else
    let nt := nonTies df
    if nt.isEmpty then "All samples tied."
    else
      let total := nt.length
      let colAhead := (nt.filter (fun r => r.cylon < r.colonial)).length
      let cylAhead := (nt.filter (fun r => r.colonial < r.cylon)).length
      "Colonial ahead: " ++ fmt1 (pctTenths colAhead total) ++ "% | Cylon ahead: " ++
        fmt1 (pctTenths cylAhead total) ++ "%"

/-- Python exceptions raised inside one destination's run. -/
inductive PyErr where
  | nameError
  | indexError
deriving DecidableEq, Repr

/-- `_apply_dark(ax)` (tracker.py:97-101): line 101 is
`ax.grid(True, color("#3a3f44"), ...)`, and `color` is not a defined name
anywhere in the module (nor a builtin), so every call raises `NameError`. -/
def _apply_dark : Except PyErr Unit :=
  Except.error PyErr.nameError

/-- The data content of the figure `plot_combined` would build; the drawing
library itself is opaque, so the chart is its input data. -/
structure Chart where
  ts : Nat
  categories : List String
  countsColonial : List Nat
  countsCylon : List Nat
  colonialCount : Nat
  cylonCount : Nat
  totalCount : Nat
  histPlotted : Bool
  pctText : String
deriving DecidableEq, Repr

/-- `plot_combined(df_current, region_label)` (tracker.py:127-199).  The
history CSV read on lines 136-140 is passed in as `hist`.  Control flow: the
figure is created (line 143), then `_apply_dark(ax1)` runs (line 146) before
any chart data is computed. -/
def plot_combined (df_current : List PlayerRecord) (hist : List AvgRow)
    (region_label : String) : Except PyErr Chart := do
  let _ ← _apply_dark                          -- line 146 (ax1)
  let ts ← match df_current.head? with         -- line 147: timestamp.iloc[0]
    | some r => pure r.timestamp
    | none => Except.error PyErr.indexError
  let categories := LEVEL_RANGES.map (fun b => toString b.1 ++ "-" ++ toString b.2)
  let countsColonial := LEVEL_RANGES.map (bucketCount df_current "Colonial")
  let countsCylon := LEVEL_RANGES.map (bucketCount df_current "Cylon")
  let _ ← _apply_dark                          -- line 174 (ax2)
  pure {
    ts := ts
    categories := categories
    countsColonial := countsColonial
    countsCylon := countsCylon
    colonialCount := (df_current.filter (fun r => r.faction == "Colonial")).length
    cylonCount := (df_current.filter (fun r => r.faction == "Cylon")).length
    totalCount := df_current.length
    histPlotted := !hist.isEmpty
    pctText := if hist.isEmpty then "No history yet to plot."
               else _pct_leader_text hist }

/-- Body of the webhook HTTP response as the tracker inspects it
(tracker.py:245-250): not parseable JSON, JSON without an `"id"` field, or
JSON carrying one. -/
inductive RespBody where
  | notJson
  | jsonWithoutId
  | jsonWithId (mid : String)
deriving DecidableEq, Repr

/-- Outcome of the `requests.post`/`requests.patch` call inside
`send_to_discord`: a raised exception, or a response with an HTTP success
flag (`r.ok`) and a body. -/
inductive TransportResult where
  | exn
  | resp (ok : Bool) (body : RespBody)
deriving DecidableEq, Repr

/-- Observable content of the outbound webhook request (tracker.py:227-241). -/
structure WebhookRequest where
  isEdit : Bool
  target : Option String
  clearsAttachments : Bool
  content : String
deriving DecidableEq, Repr

/-- `send_to_discord(webhook_url, png, summary)` (tracker.py:224-252),
parameterised by the recorded last-message id of this webhook (the value
`_read_last_msg_id` returns on line 226) and by the transport outcome.
Returns the id recorded after the call and the request that was made. -/
def send_to_discord (last_id : Option String) (tr : TransportResult)
    (summary : String) : Option String × WebhookRequest :=
  let req : WebhookRequest :=
    { isEdit := last_id.isSome                   -- line 237: patch vs post
      target := last_id                          -- line 238: /messages/{id}
      clearsAttachments := last_id.isSome        -- line 232: attachments: []
      content := summary }
  let newId :=
    match tr with
    | TransportResult.exn => last_id             -- lines 251-252: print only
    | TransportResult.resp ok body =>
      if ok then
        match body with
        | RespBody.jsonWithId mid => some mid    -- line 248: write id
        | _ => last_id                           -- lines 249-250: except pass
      else last_id                               -- line 243: print only
  (newId, req)

/-! ### MD5 (for `_id_file_for_webhook`)

`hashlib.md5` modelled bit-faithfully over byte lists, with 32-bit words as
naturals reduced modulo `2 ^ 32`. -/

/-- Reduce to a 32-bit word. -/
def w32 (n : Nat) : Nat := n % 4294967296

/-- Bitwise complement of a 32-bit word. -/
def wnot (x : Nat) : Nat := 4294967295 - x

/-- Rotate a 32-bit word left by `c` (0 < c < 32). -/
def rotl (x c : Nat) : Nat := w32 (x <<< c) + (x >>> (32 - c))

/-- MD5 per-round left-rotate amounts. -/
def MD5_S : List Nat :=
  [7, 12, 17, 22, 7, 12, 17, 22, 7, 12, 17, 22, 7, 12, 17, 22,
   5, 9, 14, 20, 5, 9, 14, 20, 5, 9, 14, 20, 5, 9, 14, 20,
   4, 11, 16, 23, 4, 11, 16, 23, 4, 11, 16, 23, 4, 11, 16, 23,
   6, 10, 15, 21, 6, 10, 15, 21, 6, 10, 15, 21, 6, 10, 15, 21]

/-- MD5 sine-derived constants `K[i] = floor(2^32 * abs(sin(i+1)))`. -/
def MD5_K : List Nat :=
  [3614090360, 3905402710, 606105819, 3250441966, 4118548399, 1200080426,
   2821735955, 4249261313, 1770035416, 2336552879, 4294925233, 2304563134,
   1804603682, 4254626195, 2792965006, 1236535329, 4129170786, 3225465664,
   643717713, 3921069994, 3593408605, 38016083, 3634488961, 3889429448,
   568446438, 3275163606, 4107603335, 1163531501, 2850285829, 4243563512,
   1735328473, 2368359562, 4294588738, 2272392833, 1839030562, 4259657740,
   2763975236, 1272893353, 4139469664, 3200236656, 681279174, 3936430074,
   3572445317, 76029189, 3654602809, 3873151461, 530742520, 3299628645,
   4096336452, 1126891415, 2878612391, 4237533241, 1700485571, 2399980690,
   4293915773, 2240044497, 1873313359, 4264355552, 2734768916, 1309151649,
   4149444226, 3174756917, 718787259, 3951481745]

/-- MD5 padding: append `0x80`, zero bytes to 56 mod 64, then the original
bit length as 8 little-endian bytes. -/
def md5Pad (msg : List Nat) : List Nat :=
  let len := msg.length
  let bitLen := (8 * len) % (2 ^ 64)
  let zeros := (119 - len % 64) % 64
  msg ++ [128] ++ List.replicate zeros 0 ++
    (List.range 8).map (fun j => (bitLen >>> (8 * j)) % 256)

/-- Split a list into 64-byte chunks; `fuel` bounds the number of chunks. -/
def chunksOf64 : Nat → List Nat → List (List Nat)
  | 0, _ => []
  | fuel + 1, l => l.take 64 :: chunksOf64 fuel (l.drop 64)

/-- Little-endian 32-bit word `g` of a 64-byte chunk. -/
def chunkWord (chunk : List Nat) (g : Nat) : Nat :=
  chunk.getD (4 * g) 0 + 256 * chunk.getD (4 * g + 1) 0 +
    65536 * chunk.getD (4 * g + 2) 0 + 16777216 * chunk.getD (4 * g + 3) 0

/-- One of the 64 MD5 mixing steps. -/
def md5Step (m : Nat → Nat) (st : Nat × Nat × Nat × Nat) (i : Nat) :
    Nat × Nat × Nat × Nat :=
  let (a, b, c, d) := st
  let fg : Nat × Nat :=
    if i < 16 then ((b &&& c) ||| (wnot b &&& d), i)
    else if i < 32 then ((d &&& b) ||| (wnot d &&& c), (5 * i + 1) % 16)
    else if i < 48 then (b ^^^ c ^^^ d, (3 * i + 5) % 16)
    else (c ^^^ (b ||| wnot d), (7 * i) % 16)
  let f2 := w32 (fg.1 + a + MD5_K.getD i 0 + m fg.2)
  (d, w32 (b + rotl f2 (MD5_S.getD i 0)), b, c)

/-- Process one 64-byte chunk, updating the running digest state. -/
def md5Chunk (st : Nat × Nat × Nat × Nat) (chunk : List Nat) :
    Nat × Nat × Nat × Nat :=
  let (a0, b0, c0, d0) := st
  let r := (List.range 64).foldl (md5Step (chunkWord chunk)) (a0, b0, c0, d0)
  (w32 (a0 + r.1), w32 (b0 + r.2.1), w32 (c0 + r.2.2.1), w32 (d0 + r.2.2.2))

/-- The four bytes of a 32-bit word, little-endian. -/
def wordLE (w : Nat) : List Nat :=
  [w % 256, (w >>> 8) % 256, (w >>> 16) % 256, (w >>> 24) % 256]

/-- The 16-byte MD5 digest of a byte list. -/
def md5Digest (msg : List Nat) : List Nat :=
  let padded := md5Pad msg
  let chunks := chunksOf64 (padded.length / 64) padded
  let st := chunks.foldl md5Chunk (1732584193, 4023233417, 2562383102, 271733878)
  wordLE st.1 ++ wordLE st.2.1 ++ wordLE st.2.2.1 ++ wordLE st.2.2.2

/-- Lowercase hex character of a nibble. -/
def hexChar (n : Nat) : Char :=
  if n < 10 then Char.ofNat (48 + n) else Char.ofNat (87 + n)

/-- Two lowercase hex characters of a byte. -/
def byteHex (b : Nat) : List Char :=
  [hexChar (b / 16), hexChar (b % 16)]

/-- `hashlib.md5(bytes).hexdigest()` as a character list. -/
def md5HexChars (msg : List Nat) : List Char :=
  ((md5Digest msg).map byteHex).join

/-- `url.encode("utf-8")` for the ASCII URLs the tracker handles: the code
points of the characters. -/
def strBytes (s : String) : List Nat :=
  s.toList.map Char.toNat

/-- `_id_file_for_webhook(url)` (tracker.py:202-204):
`"last_id_" + md5(url)[:10] + ".txt"`. -/
def _id_file_for_webhook (url : String) : String :=
  "last_id_" ++ String.mk ((md5HexChars (strBytes url)).take 10) ++ ".txt"

/-- One configured destination, as built by `_load_webhooks`
(tracker.py:27-49). -/
structure WebhookCfg where
  url : String
  bsgo_url : String
  label : String
deriving DecidableEq, Repr

/-- The tracker's persistent files: `players.csv`, `averages.csv`, and the
`last_id_<hash>.txt` files keyed by the path `_id_file_for_webhook` yields. -/
structure TrackerState where
  playersCsv : List PlayerRecord
  averagesCsv : List AvgRow
  lastIds : String → Option String

/-- The summary text built in `run_once_for` (tracker.py:268-273). -/
def summary_for (label : String) (colonial cylon total : Nat) : String :=
  (if label != "" then "[" ++ label ++ "] " else "") ++
    "Colonial Players: " ++ toString colonial ++ "\n" ++
    "Cylon Players: " ++ toString cylon ++ "\n" ++
    "Total Players: " ++ toString total

/-- `run_once_for(webhook_cfg)` (tracker.py:255-275), parameterised by its
environment: `fetched` is the snapshot `fetch_data(bsgo_url)` returned this
cycle, `ts` the `utcnow()` reading inside `update_average_csv`, and `tr` the
transport outcome the webhook call would have.  Returns the updated file
state and the exception escaping the call, if any. -/
def run_once_for (cfg : WebhookCfg) (fetched : List PlayerRecord) (ts : Nat)
    (tr : TransportResult) (s : TrackerState) : TrackerState × Option PyErr :=
  if fetched.isEmpty then (s, none)          -- lines 260-262: warn and return
  else
    let s1 : TrackerState := { s with playersCsv := append_to_csv fetched s.playersCsv }
    let colonial := (fetched.filter (fun r => r.faction == "Colonial")).length
    let cylon := (fetched.filter (fun r => r.faction == "Cylon")).length
    let total := fetched.length
    let s2 : TrackerState :=
      { s1 with averagesCsv := update_average_csv ts colonial cylon s1.averagesCsv }
    let summary := summary_for cfg.label colonial cylon total
    match plot_combined fetched s2.averagesCsv cfg.label with  -- line 274
    | Except.error e => (s2, some e)         -- NameError escapes run_once_for
    | Except.ok _chart =>
      let key := _id_file_for_webhook cfg.url
      let out := send_to_discord (s2.lastIds key) tr summary   -- line 275
      ({ s2 with lastIds := fun k => if k = key then out.1 else s2.lastIds k }, none)

/-- The destination loop inside the `try:` block (tracker.py:283-284); an
exception from `run_once_for` aborts the remaining destinations of the
cycle. -/
def run_destinations (fetch : WebhookCfg → List PlayerRecord) (ts : Nat)
    (tr : TransportResult) : List WebhookCfg → TrackerState → TrackerState × Option PyErr
  | [], s => (s, none)
  | cfg :: rest, s =>
    match run_once_for cfg (fetch cfg) ts tr s with
    | (s1, none) => run_destinations fetch ts tr rest s1
    | (s1, some e) => (s1, some e)

/-- One scheduler cycle (tracker.py:281-287): the destination loop runs under
`try: ... except Exception as e: print(...)`, so whatever happens, the cycle
returns a state and the process proceeds to the sleep. -/
def run_cycle (fetch : WebhookCfg → List PlayerRecord) (ts : Nat)
    (tr : TransportResult) (cfgs : List WebhookCfg) (s : TrackerState) : TrackerState :=
  (run_destinations fetch ts tr cfgs s).1

/-- Sample accepted Colonial record. -/
def samplePlayer : PlayerRecord :=
  { timestamp := 7, faction := "Colonial", player_id := "1", name := "Alice", level := 10 }

/-- Sample destination. -/
def sampleCfg : WebhookCfg :=
  { url := "https://discord.com/api/webhooks/1/750620", bsgo_url := "", label := "" }

/-- A second, distinct destination. -/
def sampleCfg2 : WebhookCfg :=
  { url := "https://discord.com/api/webhooks/1/970371", bsgo_url := "", label := "" }

/-- Fresh file state: no CSVs, no recorded message ids. -/
def emptyState : TrackerState :=
  { playersCsv := [], averagesCsv := [], lastIds := fun _ => none }

/-- The table rows of Scenario B. -/
def scenarioB_rows : List (List String) :=
  [["Colonial", "1", "Alice", "10"], ["Cylon", "2", "Bob", "20"],
   ["X", "3", "bad", "notanumber"]]

/-- The history of Scenario E: (5,3), (2,2), (1,4). -/
def histE : List AvgRow :=
  [{ timestamp := 1, colonial := 5, cylon := 3 },
   { timestamp := 2, colonial := 2, cylon := 2 },
   { timestamp := 3, colonial := 1, cylon := 4 }]

/-! ### Theorems -/

theorem fetchAux_fields (clock : Nat → Nat) (k : Nat) (rows : List (List String)) :
    (fetchAux clock k rows).map recFields = (rows.filter rowAccepted).map rowFields := by
  induction rows generalizing k with
  | nil => simp [fetchAux]
  | cons cols rest ih =>
    match cols with
    | [] => simpa [fetchAux, rowAccepted] using ih k
    | [a] => simpa [fetchAux, rowAccepted] using ih k
    | [a, b] => simpa [fetchAux, rowAccepted] using ih k
    | [a, b, c] => simpa [fetchAux, rowAccepted] using ih k
    | a :: b :: c :: lvl :: rest2 =>
      by_cases h : pyIsDigit lvl
      · simp [fetchAux, rowAccepted, h, recFields, rowFields, ih (k + 1)]
      · simp [fetchAux, rowAccepted, h, ih k]

theorem fetchAux_timestamps (clock : Nat → Nat) (k : Nat) (rows : List (List String)) :
    (fetchAux clock k rows).map PlayerRecord.timestamp =
      (List.range (rows.countP rowAccepted)).map (fun j => clock (k + j)) := by
  induction rows generalizing k with
  | nil => simp [fetchAux]
  | cons cols rest ih =>
    match cols with
    | [] => simpa [fetchAux, rowAccepted] using ih k
    | [a] => simpa [fetchAux, rowAccepted] using ih k
    | [a, b] => simpa [fetchAux, rowAccepted] using ih k
    | [a, b, c] => simpa [fetchAux, rowAccepted] using ih k
    | a :: b :: c :: lvl :: rest2 =>
      by_cases h : pyIsDigit lvl
      · simp only [fetchAux, h, if_pos, List.map_cons, List.countP_cons, rowAccepted, h]
        rw [ih (k + 1)]
        simp [List.range_succ_eq_map, Function.comp, Nat.add_comm, Nat.add_assoc,
          Nat.add_left_comm]
      · simp only [fetchAux, h, if_neg, List.countP_cons, rowAccepted]
        simpa [h] using ih k

/-- Every level in 0..255 lies in exactly one band; larger levels in none. -/
theorem countP_inBand (lvl : Nat) :
    LEVEL_RANGES.countP (fun b => decide (inBand lvl b)) =
      if lvl ≤ 255 then 1 else 0 := by
  simp only [LEVEL_RANGES, List.countP_cons, List.countP_nil, inBand,
    decide_eq_true_eq]
  split_ifs <;> omega

theorem sum_map_add {α : Type} (B : List α) (f g : α → Nat) :
    (B.map (fun b => f b + g b)).sum = (B.map f).sum + (B.map g).sum := by
  induction B with
  | nil => simp
  | cons b rest ih => simp only [List.map_cons, List.sum_cons, ih]; ring

theorem sum_map_ite {α : Type} (B : List α) (p : α → Bool) :
    (B.map (fun b => if p b then 1 else 0)).sum = B.countP p := by
  induction B with
  | nil => simp
  | cons b rest ih =>
    by_cases h : p b <;> simp [List.countP_cons, h, ih] <;> omega

/-- Summing the seven bucket counts of one faction gives the number of that
faction's records whose level is in range (≤ 255). -/
theorem bucket_sum (df : List PlayerRecord) (f : String) :
    (LEVEL_RANGES.map (bucketCount df f)).sum =
      (df.filter (fun r => r.faction == f && decide (r.level ≤ 255))).length := by
  induction df with
  | nil => simp [bucketCount, LEVEL_RANGES]
  | cons r rest ih =>
    have hstep : LEVEL_RANGES.map (bucketCount (r :: rest) f) =
        LEVEL_RANGES.map (fun b =>
          (if r.faction == f && decide (inBand r.level b) then 1 else 0) +
            bucketCount rest f b) := by
      refine List.map_congr_left ?_
      intro b _
      by_cases h : (r.faction == f && decide (inBand r.level b)) = true
      · simp only [bucketCount, List.filter_cons, h, if_pos, List.length_cons, if_true]
        omega
      · simp [bucketCount, List.filter_cons, h]
    rw [hstep, sum_map_add, sum_map_ite, ih]
    by_cases hf : r.faction == f
    · have hc : LEVEL_RANGES.countP (fun b => r.faction == f && decide (inBand r.level b)) =
          LEVEL_RANGES.countP (fun b => decide (inBand r.level b)) := by
        refine List.countP_congr ?_
        intro b _
        simp [hf]
      rw [hc, countP_inBand]
      by_cases hl : r.level ≤ 255 <;> simp [List.filter_cons, hf, hl] <;> omega
    · have hc : LEVEL_RANGES.countP (fun b => r.faction == f && decide (inBand r.level b)) = 0 := by
        rw [List.countP_eq_zero]
        intro b _
        simp [hf]
      rw [hc]
      simp [List.filter_cons, hf]

/-- Round-half-even of `x` and of `1000 - x` always sum to `1000`. -/
theorem roundHalfEven_compl (x : ℚ) :
    roundHalfEven x + roundHalfEven (1000 - x) = 1000 := by
  unfold roundHalfEven
  have hfx : (⌊x⌋ : ℚ) ≤ x := Int.floor_le x
  have hfx' : x < ⌊x⌋ + 1 := Int.lt_floor_add_one x
  by_cases h0 : x - ⌊x⌋ = 0
  · have hx : x = (⌊x⌋ : ℚ) := by linarith
    have hfl : ⌊(1000 : ℚ) - x⌋ = 1000 - ⌊x⌋ := by
      rw [Int.floor_eq_iff]
      constructor
      · push_cast; linarith
      · push_cast; linarith
    have h1 : x - (⌊x⌋ : ℚ) < 1 / 2 := by rw [h0]; norm_num
    have h2 : (1000 : ℚ) - x - (⌊(1000 : ℚ) - x⌋ : ℚ) < 1 / 2 := by
      rw [hfl]; push_cast; linarith
    rw [if_pos h1, if_pos h2, hfl]
    omega
  · have hr0 : 0 < x - ⌊x⌋ := by
      rcases lt_or_eq_of_le (by linarith : (0:ℚ) ≤ x - ⌊x⌋) with h | h
      · exact h
      · exact absurd h.symm h0
    have hr1 : x - ⌊x⌋ < 1 := by linarith
    have hfl : ⌊(1000 : ℚ) - x⌋ = 999 - ⌊x⌋ := by
      rw [Int.floor_eq_iff]
      constructor
      · push_cast; linarith
      · push_cast; linarith
    simp only [hfl]
    by_cases hlt : x - ⌊x⌋ < 1 / 2
    · have h2 : ¬ ((1000 : ℚ) - x - (999 - ⌊x⌋ : ℤ) < 1 / 2) := by push_cast; linarith
      have h3 : (1 / 2 : ℚ) < 1000 - x - (999 - ⌊x⌋ : ℤ) := by push_cast; linarith
      rw [if_pos hlt, if_neg h2, if_pos h3]
      omega
    · by_cases hgt : 1 / 2 < x - ⌊x⌋
      · have h2 : ((1000 : ℚ) - x - (999 - ⌊x⌋ : ℤ) < 1 / 2) := by push_cast; linarith
        rw [if_neg hlt, if_pos hgt, if_pos h2]
        omega
      · have heq : x - ⌊x⌋ = 1 / 2 := by linarith
        have h2 : ¬ ((1000 : ℚ) - x - (999 - ⌊x⌋ : ℤ) < 1 / 2) := by push_cast; linarith
        have h3 : ¬ ((1 / 2 : ℚ) < 1000 - x - (999 - ⌊x⌋ : ℤ)) := by push_cast; linarith
        rw [if_neg hlt, if_neg hgt, if_neg h2, if_neg h3]
        by_cases hpar : ⌊x⌋ % 2 = 0
        · rw [if_pos hpar, if_neg (by omega : ¬ (999 - ⌊x⌋) % 2 = 0)]
          omega
        · rw [if_neg hpar, if_pos (by omega : (999 - ⌊x⌋) % 2 = 0)]
          omega

/-- `plot_combined` raises before doing anything else: its first statement
after creating the figure is `_apply_dark(ax1)`, which evaluates the
undefined name `color`. -/
theorem plot_combined_error (df : List PlayerRecord) (hist : List AvgRow)
    (label : String) : plot_combined df hist label = Except.error PyErr.nameError := rfl

/-- On a list of non-tied rows, the colonial-ahead and cylon-ahead rows
partition the list. -/
theorem ahead_partition (l : List AvgRow) (h : ∀ r ∈ l, r.colonial ≠ r.cylon) :
    (l.filter (fun r => r.cylon < r.colonial)).length +
      (l.filter (fun r => r.colonial < r.cylon)).length = l.length := by
  induction l with
  | nil => simp
  | cons r rest ih =>
    have hr : r.colonial ≠ r.cylon := h r (by simp)
    have hrest : ∀ x ∈ rest, x.colonial ≠ x.cylon := fun x hx => h x (by simp [hx])
    have hsum := ih hrest
    rcases Nat.lt_or_ge r.cylon r.colonial with hlt | hge
    · have h2 : ¬ (r.colonial < r.cylon) := by omega
      simp [List.filter_cons, hlt, h2]
      omega
    · have hlt2 : r.colonial < r.cylon := by omega
      have h2 : ¬ (r.cylon < r.colonial) := by omega
      simp [List.filter_cons, hlt2, h2]
      omega

/-- Every row of `nonTies df` is not a tie. -/
theorem nonTies_mem_ne (df : List AvgRow) : ∀ r ∈ nonTies df, r.colonial ≠ r.cylon := by
  intro r hr
  have h := (List.mem_filter.mp hr).2
  simpa using h

/-- Rounded tenths of complementary percentages sum to exactly 1000. -/
theorem pct_tenths_sum (a b t : Nat) (ht : 0 < t) (hab : a + b = t) :
    pctTenths a t + pctTenths b t = 1000 := by
  unfold pctTenths
  have htQ : (t : ℚ) ≠ 0 := Nat.cast_ne_zero.mpr (by omega)
  have habQ : (a : ℚ) + b = t := by exact_mod_cast hab
  have hQ : ((b : ℚ) * 1000) / t = 1000 - ((a : ℚ) * 1000) / t := by
    field_simp
    linarith
  rw [hQ, roundHalfEven_compl]

theorem length_md5Digest (msg : List Nat) : (md5Digest msg).length = 16 := by
  unfold md5Digest
  simp [wordLE]

theorem length_join_byteHex (l : List Nat) : ((l.map byteHex).join).length = 2 * l.length := by
  induction l with
  | nil => simp
  | cons b rest ih =>
    show (byteHex b ++ (List.map byteHex rest).join).length = 2 * (b :: rest).length
    rw [List.length_append, ih]
    simp [byteHex]
    ring

theorem length_md5HexChars (msg : List Nat) : (md5HexChars msg).length = 32 := by
  unfold md5HexChars
  rw [length_join_byteHex, length_md5Digest]

theorem id_file_length (u : String) : (_id_file_for_webhook u).length = 22 := by
  unfold _id_file_for_webhook
  rw [String.length_append, String.length_append]
  have h1 : (String.mk ((md5HexChars (strBytes u)).take 10)).length = 10 := by
    show ((md5HexChars (strBytes u)).take 10).length = 10
    rw [List.length_take, length_md5HexChars]
    omega
  rw [h1]
  rfl

/-- C1: the claim says rendering a combined chart for well-formed inputs
always succeeds; in the code, `plot_combined` applies `_apply_dark`, whose
line 101 evaluates the undefined name `color`, so every call raises
`NameError` instead — for every snapshot, history and label the render step
fails. -/
theorem plot_combined_raises_nameError (df : List PlayerRecord) (hist : List AvgRow)
    (label : String) :
    plot_combined df hist label = Except.error PyErr.nameError :=
  plot_combined_error df hist label

/-- C2 counterexample: a cycle whose fetched snapshot is empty appends no
`AggregateRow` at all (`run_once_for` returns before `update_average_csv`),
so "exactly one row per cycle" fails on empty snapshots. -/
theorem run_once_empty_no_aggregate_row :
    (run_once_for sampleCfg [] 7 TransportResult.exn emptyState).1.averagesCsv.length = 0 ∧
      (0 : Nat) ≠ 1 := by
  constructor
  · rfl
  · decide

/-- C2 amended: a cycle with a non-empty snapshot appends exactly one
`AggregateRow` (timestamp plus the two faction counts) to the aggregate
store — this happens before the chart render and thus even though the render
step later raises; a cycle with an empty snapshot appends nothing and leaves
the state untouched. -/
theorem run_once_aggregate_append (cfg : WebhookCfg) (fetched : List PlayerRecord)
    (ts : Nat) (tr : TransportResult) (s : TrackerState) :
    (fetched = [] → run_once_for cfg fetched ts tr s = (s, none)) ∧
    (fetched ≠ [] →
      (run_once_for cfg fetched ts tr s).1.averagesCsv =
        s.averagesCsv ++
          [{ timestamp := ts,
             colonial := (fetched.filter (fun r => r.faction == "Colonial")).length,
             cylon := (fetched.filter (fun r => r.faction == "Cylon")).length }]) := by
  constructor
  · intro h
    subst h
    rfl
  · intro h
    match fetched, h with
    | r :: rest, _ =>
      simp only [run_once_for, List.isEmpty_cons, Bool.false_eq_true, if_false,
        plot_combined_error]
      rfl

/-- Witness for `run_once_aggregate_append` at a concrete non-empty
snapshot. -/
theorem run_once_aggregate_append_witness :
    (run_once_for sampleCfg [samplePlayer] 7 TransportResult.exn emptyState).1.averagesCsv =
      emptyState.averagesCsv ++
        [{ timestamp := 7,
           colonial := ([samplePlayer].filter (fun r => r.faction == "Colonial")).length,
           cylon := ([samplePlayer].filter (fun r => r.faction == "Cylon")).length }] :=
  (run_once_aggregate_append sampleCfg [samplePlayer] 7 TransportResult.exn emptyState).2
    (by decide)

set_option maxRecDepth 10000 in
/-- C9 counterexample: two distinct webhook URLs whose state-file keys are
identical — the key keeps only the first 10 hex characters (40 bits) of the
URL's md5, so distinct URLs can and do collide. -/
theorem id_file_collision :
    sampleCfg.url ≠ sampleCfg2.url ∧
      _id_file_for_webhook sampleCfg.url = _id_file_for_webhook sampleCfg2.url := by
  constructor
  · decide
  · decide

/-- C9 amended: the state-file key is a deterministic function of the URL
with a fixed shape — `"last_id_"` plus the first 10 hex characters of the
URL's md5 plus `".txt"`, always 22 characters — so the same URL always maps
to the same key; but keys are NOT collision-free: distinct URLs exist that
share one key. -/
theorem id_file_key_deterministic_not_injective :
    (∀ u : String, _id_file_for_webhook u =
        "last_id_" ++ String.mk ((md5HexChars (strBytes u)).take 10) ++ ".txt") ∧
    (∀ u : String, (_id_file_for_webhook u).length = 22) ∧
    (∃ u v : String, u ≠ v ∧ _id_file_for_webhook u = _id_file_for_webhook v) := by
  refine ⟨fun u => rfl, id_file_length, ?_⟩
  refine ⟨sampleCfg.url, sampleCfg2.url, ?_, ?_⟩
  · decide
  · show _id_file_for_webhook "https://discord.com/api/webhooks/1/750620" =
      _id_file_for_webhook "https://discord.com/api/webhooks/1/970371"
    have h : String.mk ((md5HexChars (strBytes "https://discord.com/api/webhooks/1/750620")).take 10) =
        String.mk ((md5HexChars (strBytes "https://discord.com/api/webhooks/1/970371")).take 10) := by
      set_option maxRecDepth 10000 in decide
    unfold _id_file_for_webhook
    rw [h]

/-- C3 counterexample: with two configured destinations and a fetch that
yields a (non-empty) snapshot for each, the first destination's run raises
(in the render step), and the cycle stops: only one aggregate row is
appended, where running both destinations would append two.  The remaining
destination of the cycle is not run. -/
theorem run_cycle_failure_skips_rest :
    (run_cycle (fun _ => [samplePlayer]) 7 TransportResult.exn [sampleCfg, sampleCfg2]
        emptyState).averagesCsv.length = 1 ∧
      (1 : Nat) ≠ 2 := by
  constructor
  · rfl
  · decide

/-- C3 amended: the `try/except` sits outside the destination loop, so an
exception in one destination's run aborts the remaining destinations of that
cycle; the exception is still caught at the cycle boundary — `run_cycle`
returns the state accumulated so far and the scheduler proceeds (the process
does not terminate). -/
theorem run_cycle_error_containment (fetch : WebhookCfg → List PlayerRecord)
    (ts : Nat) (tr : TransportResult) (cfg : WebhookCfg) (rest : List WebhookCfg)
    (s s' : TrackerState) (e : PyErr)
    (h : run_once_for cfg (fetch cfg) ts tr s = (s', some e)) :
    run_destinations fetch ts tr (cfg :: rest) s = (s', some e) ∧
      run_cycle fetch ts tr (cfg :: rest) s = s' := by
  constructor
  · simp [run_destinations, h]
  · simp [run_cycle, run_destinations, h]

/-- Witness for `run_cycle_error_containment`: the concrete failing first
destination of `run_cycle_failure_skips_rest`. -/
theorem run_cycle_error_containment_witness :
    run_destinations (fun _ => [samplePlayer]) 7 TransportResult.exn
        [sampleCfg, sampleCfg2] emptyState =
      ({ playersCsv := [samplePlayer],
         averagesCsv := [{ timestamp := 7, colonial := 1, cylon := 0 }],
         lastIds := fun _ => none }, some PyErr.nameError) ∧
      run_cycle (fun _ => [samplePlayer]) 7 TransportResult.exn
        [sampleCfg, sampleCfg2] emptyState =
      { playersCsv := [samplePlayer],
        averagesCsv := [{ timestamp := 7, colonial := 1, cylon := 0 }],
        lastIds := fun _ => none } :=
  run_cycle_error_containment (fun _ => [samplePlayer]) 7 TransportResult.exn
    sampleCfg [sampleCfg2] emptyState _ PyErr.nameError rfl

/-- C4 counterexample: `fetch_data` calls `utcnow()` inside the row loop, so
with a clock that advances between the two accepted rows the snapshot's
records carry the distinct timestamps 0 and 1, not one identical capture
timestamp. -/
theorem fetch_per_row_timestamps_cex :
    (fetch_data (fun k => k)
        [["Colonial", "1", "Alice", "10"], ["Cylon", "2", "Bob", "20"]]).map
      PlayerRecord.timestamp = [0, 1] ∧ (0 : Nat) ≠ 1 := by
  constructor
  · decide
  · decide

/-- C4 amended: each accepted row gets its own `utcnow()` reading — the k-th
accepted record's timestamp is the clock's k-th value — so the records share
one identical timestamp only when the clock does not advance within the call
(they are near-identical consecutive readings, not one shared reading). -/
theorem fetch_timestamps_per_row (clock : Nat → Nat) (rows : List (List String)) :
    ((fetch_data clock rows).map PlayerRecord.timestamp =
      (List.range (rows.countP rowAccepted)).map clock) ∧
    (∀ t : Nat, ∀ r ∈ fetch_data (fun _ => t) rows, r.timestamp = t) := by
  constructor
  · have h := fetchAux_timestamps clock 0 rows
    simpa [fetch_data] using h
  · intro t r hr
    have hmem : r.timestamp ∈ (fetch_data (fun _ => t) rows).map PlayerRecord.timestamp :=
      List.mem_map_of_mem _ hr
    rw [fetch_data, fetchAux_timestamps (fun _ => t) 0 rows] at hmem
    rcases List.mem_map.mp hmem with ⟨j, _, hj⟩
    exact hj.symm

/-- Witness for `fetch_timestamps_per_row`: under a constant clock the first
record of Scenario B's snapshot carries that clock value. -/
theorem fetch_timestamps_per_row_witness :
    ({ timestamp := 7, faction := "Colonial", player_id := "1", name := "Alice",
       level := 10 } : PlayerRecord).timestamp = 7 :=
  (fetch_timestamps_per_row (fun _ => 7) scenarioB_rows).2 7
    { timestamp := 7, faction := "Colonial", player_id := "1", name := "Alice",
      level := 10 } (by decide)

/-- C5: the publisher state machine of `send_to_discord` — with no recorded
id the request is a create (no edit target, no attachment clearing); with a
recorded id it is an edit of that exact message carrying the
attachment-clearing payload; a success whose JSON carries an id re-records
that id; an exception or a non-ok response leaves the recorded id exactly as
it was (no fallback from edit to create). -/
theorem send_to_discord_state_machine (summary : String) :
    (∀ tr, (send_to_discord none tr summary).2 =
      { isEdit := false, target := none, clearsAttachments := false,
        content := summary }) ∧
    (∀ tr mid, (send_to_discord (some mid) tr summary).2 =
      { isEdit := true, target := some mid, clearsAttachments := true,
        content := summary }) ∧
    (∀ lastId mid, (send_to_discord lastId
        (TransportResult.resp true (RespBody.jsonWithId mid)) summary).1 = some mid) ∧
    (∀ lastId, (send_to_discord lastId TransportResult.exn summary).1 = lastId) ∧
    (∀ lastId body, (send_to_discord lastId
        (TransportResult.resp false body) summary).1 = lastId) :=
  ⟨fun _ => rfl, fun _ _ => rfl, fun _ _ => rfl, fun _ => rfl, fun _ _ => rfl⟩

/-- C6: leader percentages are computed over non-tied rows only; when some
non-tied row exists the two rounded percentages sum to exactly 100.0 (1000
tenths); empty history and all-tied history produce their fixed texts; and
Scenario E's history (5,3), (2,2), (1,4) yields 50.0% for each faction. -/
theorem pct_leader_spec :
    (∀ df : List AvgRow, df ≠ [] → nonTies df ≠ [] →
      pctTenths ((nonTies df).filter (fun r => r.cylon < r.colonial)).length
          (nonTies df).length +
        pctTenths ((nonTies df).filter (fun r => r.colonial < r.cylon)).length
          (nonTies df).length = 1000) ∧
    _pct_leader_text [] = "No history yet." ∧
    (∀ df : List AvgRow, df ≠ [] → nonTies df = [] →
      _pct_leader_text df = "All samples tied.") ∧
    _pct_leader_text histE = "Colonial ahead: 50.0% | Cylon ahead: 50.0%" := by
  refine ⟨?_, rfl, ?_, ?_⟩
  · intro df _ hnt
    exact pct_tenths_sum _ _ _ (List.length_pos.mpr hnt)
      (ahead_partition (nonTies df) (nonTies_mem_ne df))
  · intro df h1 h2
    have hb1 : df.isEmpty = false := List.isEmpty_eq_false.mpr h1
    have hb2 : (nonTies df).isEmpty = true := by simp [h2]
    simp only [_pct_leader_text, hb1, hb2, Bool.false_eq_true, if_false, if_true]
  · have hne : histE.isEmpty = false := by decide
    have hnte : (nonTies histE).isEmpty = false := by decide
    have hca : ((nonTies histE).filter (fun r => r.cylon < r.colonial)).length = 1 := by
      decide
    have hcy : ((nonTies histE).filter (fun r => r.colonial < r.cylon)).length = 1 := by
      decide
    have hlen : (nonTies histE).length = 2 := by decide
    have h500 : pctTenths 1 2 = 500 := by norm_num [pctTenths, roundHalfEven]
    have hfmt : fmt1 500 = "50.0" := by decide
    simp only [_pct_leader_text, hne, Bool.false_eq_true, if_false, hnte, hca, hcy,
      hlen, h500, hfmt]
    rfl

/-- Witness for `pct_leader_spec`: the percentage-sum clause at Scenario E's
history. -/
theorem pct_leader_spec_witness :
    pctTenths ((nonTies histE).filter (fun r => r.cylon < r.colonial)).length
        (nonTies histE).length +
      pctTenths ((nonTies histE).filter (fun r => r.colonial < r.cylon)).length
        (nonTies histE).length = 1000 :=
  pct_leader_spec.1 histE (by decide) (by decide)

/-- C7: a parsed row enters the snapshot iff it has at least four columns and
its fourth column is a digit string (all others are silently dropped, the
snapshot listing exactly the accepted rows' fields in order); Scenario B's
three rows yield exactly 2 records and the three-line summary text. -/
theorem row_acceptance_spec :
    (∀ clock rows, (fetch_data clock rows).map recFields =
      (rows.filter rowAccepted).map rowFields) ∧
    (∀ cols : List String,
      rowAccepted cols = (decide (4 ≤ cols.length) && pyIsDigit (cols.getD 3 ""))) ∧
    (fetch_data (fun _ => 7) scenarioB_rows).length = 2 ∧
    summary_for ""
        ((fetch_data (fun _ => 7) scenarioB_rows).filter
          (fun r => r.faction == "Colonial")).length
        ((fetch_data (fun _ => 7) scenarioB_rows).filter
          (fun r => r.faction == "Cylon")).length
        (fetch_data (fun _ => 7) scenarioB_rows).length =
      "Colonial Players: 1\nCylon Players: 1\nTotal Players: 2" := by
  refine ⟨?_, ?_, by decide, by decide⟩
  · intro clock rows
    simpa [fetch_data] using fetchAux_fields clock 0 rows
  · intro cols
    match cols with
    | [] => rfl
    | [a] => rfl
    | [a, b] => rfl
    | [a, b, c] => rfl
    | a :: b :: c :: d :: rest =>
      have h4 : decide (4 ≤ (a :: b :: c :: d :: rest).length) = true := by
        simp
      simp [rowAccepted, h4, List.getD]

/-- C8: every record's level lies in at most one of the seven fixed bands —
exactly one when the level is in range (0–255, which a parsed level always
reaches from below since levels are non-negative), zero otherwise — and for
every faction the per-band bucket counts sum to the number of that faction's
in-range records. -/
theorem bucketize_partition :
    (∀ r : PlayerRecord,
      LEVEL_RANGES.countP (fun b => decide (inBand r.level b)) =
        if r.level ≤ 255 then 1 else 0) ∧
    (∀ (df : List PlayerRecord) (f : String),
      (LEVEL_RANGES.map (bucketCount df f)).sum =
        (df.filter (fun r => r.faction == f && decide (r.level ≤ 255))).length) :=
  ⟨fun r => countP_inBand r.level, bucket_sum⟩

/-- C10: a successful HTTP response whose body is not JSON or has no `"id"`
field leaves the recorded message id exactly as it was (the parse error is
swallowed); the recorded id changes only when a successful response carries
an `"id"`. -/
theorem send_id_preserved_without_id (summary : String) :
    (∀ lastId, (send_to_discord lastId
      (TransportResult.resp true RespBody.notJson) summary).1 = lastId) ∧
    (∀ lastId, (send_to_discord lastId
      (TransportResult.resp true RespBody.jsonWithoutId) summary).1 = lastId) ∧
    (∀ lastId tr, (send_to_discord lastId tr summary).1 ≠ lastId →
      ∃ mid, tr = TransportResult.resp true (RespBody.jsonWithId mid) ∧
        (send_to_discord lastId tr summary).1 = some mid) := by
  refine ⟨fun _ => rfl, fun _ => rfl, ?_⟩
  intro lastId tr h
  match tr with
  | TransportResult.exn => exact absurd rfl h
  | TransportResult.resp false body => exact absurd rfl h
  | TransportResult.resp true RespBody.notJson => exact absurd rfl h
  | TransportResult.resp true RespBody.jsonWithoutId => exact absurd rfl h
  | TransportResult.resp true (RespBody.jsonWithId mid) => exact ⟨mid, rfl, rfl⟩

/-- Witness for `send_id_preserved_without_id`: a fresh destination whose
successful response carries id "42". -/
theorem send_id_preserved_without_id_witness :
    ∃ mid, TransportResult.resp true (RespBody.jsonWithId "42") =
        TransportResult.resp true (RespBody.jsonWithId mid) ∧
      (send_to_discord none (TransportResult.resp true (RespBody.jsonWithId "42"))
        "s").1 = some mid :=
  (send_id_preserved_without_id "s").2.2 none
    (TransportResult.resp true (RespBody.jsonWithId "42")) (by decide)
